import Mathlib

/-!
Shallow embedding of `src/contracts/script/post_deploy.py` (the
Deployment Registrar) and proofs of the spec claims about it.

Modelling conventions:
  * Python dict lookups with `.get(k)` become `Option` fields.
  * JSON dicts become structures; an optional key present only sometimes
    (such as `deployed_by` in the submission payload) becomes an `Option`
    field where `none` means the key is absent.
  * The `requests` library is modelled by oracle values/functions supplied
    as parameters: an `HttpResult` for the config GET, a `Nat → PostResult`
    oracle giving the outcome of the i-th POST, and filesystem oracles
    (`resolve`, `fsExists`, `readJson`) for the broadcast-file search.
  * `raise` becomes `Except.error`; `sys.exit(n)` becomes exit code `n` in
    the result of `main`; console prints and network requests become an
    event trace.
-/

namespace PostDeploy

/-- Python truthiness of an optional string value: `None` and the empty
string are falsy, every other string is truthy. -/
def truthyOpt : Option String → Bool
  | none => false
  | some s => s != ""

/-- A contract mapping row fetched from the database
(`{ id, solidity_name, db_name }`). -/
structure ContractMapping where
  id : Nat
  solidity_name : String
  db_name : String
  deriving DecidableEq, Repr

/-- The network part of the fetched configuration.  `default_deployer` is
`none` when the key is absent or its JSON value is null. -/
structure NetworkConfig where
  network_name : String
  display_name : String
  default_deployer : Option String
  deriving DecidableEq, Repr

/-- The `data` object returned by the config endpoint:
`{ network: {...}, mappings: [...] }`. -/
structure Config where
  network : NetworkConfig
  mappings : List ContractMapping
  deriving DecidableEq, Repr

/-- One transaction of the Foundry broadcast JSON.  Every field is read in
the source with `tx.get(...)`, hence `Option`. -/
structure Tx where
  transactionType : Option String
  contractName : Option String
  contractAddress : Option String
  hash : Option String
  deriving DecidableEq, Repr

/-- The broadcast JSON; `transactions` models
`broadcast.get("transactions", [])`. -/
structure Broadcast where
  transactions : List Tx
  deriving DecidableEq, Repr

/-- A derived Deployment record, as built by `extract_deployments`. -/
structure Deployment where
  solidity_name : String
  db_name : String
  mapping_id : Nat
  address : Option String
  tx_hash : Option String
  deriving DecidableEq, Repr

/-- Python rendering of an optional string inside an f-string:
`None` prints as "None". -/
def pyStr : Option String → String
  | none => "None"
  | some s => s

/-- The dict comprehension
`{m["solidity_name"]: m for m in self.config["mappings"]}` followed by a
key lookup: a later mapping with the same `solidity_name` overwrites an
earlier one, so the lookup returns the LAST matching mapping.  A `None`
contract name is never a key of the dict. -/
def solidityToMapping (ms : List ContractMapping) : Option String → Option ContractMapping
  | none => none
  | some name => ms.reverse.find? (fun m => m.solidity_name == name)

/-- The skip message printed at line 116 of the source:
`f"  Skipping \x7bsolidity_name\x7d: not in contract_mappings table"`. -/
def skipMsg (name : Option String) : String :=
  "  Skipping " ++ pyStr name ++ ": not in contract_mappings table"

/-- The Deployment dict appended at lines 108-114 of the source.  The
`solidity_name` field holds `tx.get("contractName")`; the append only
happens when that name was found as a dict key, so it is a string there
(`pyStr` is the identity on that path). -/
def mkDeployment (m : ContractMapping) (tx : Tx) : Deployment :=
  { solidity_name := pyStr tx.contractName
    db_name := m.db_name
    mapping_id := m.id
    address := tx.contractAddress
    tx_hash := tx.hash }

/-- The loop body of `extract_deployments` (source lines 100-118): walks the
transactions in order, producing the list of Deployments together with the
list of skip messages printed along the way. -/
def extractCore (cfg : Config) : List Tx → List Deployment × List String
  | [] => ([], [])
  | tx :: rest =>
    let r := extractCore cfg rest
    if tx.transactionType == some "CREATE" then
      match solidityToMapping cfg.mappings tx.contractName with
      | some m => (mkDeployment m tx :: r.1, r.2)
      | none => (r.1, skipMsg tx.contractName :: r.2)
    else r

/-- Function `extract_deployments` (source lines 87-118), including the guard at
lines 92-93 that raises when `self.config` is still `None`.  The result
pairs the returned deployments with the skip messages printed. -/
def extract_deployments (config : Option Config) (broadcast : Broadcast) :
    Except String (List Deployment × List String) :=
  match config with
  | none => Except.error "Config not loaded. Call fetch_config() first."
  | some cfg => Except.ok (extractCore cfg broadcast.transactions)

/-- The Cross-Referencer exactly as the spec words it: one Deployment per
CREATE-type transaction whose declared name is a known mapping, zero for
every other transaction, in record order.  Used only to be compared with
`extractCore`, which is translated from the source. -/
def claimedDeployments (cfg : Config) (txs : List Tx) : List Deployment :=
  txs.filterMap (fun tx =>
    if tx.transactionType == some "CREATE" then
      (solidityToMapping cfg.mappings tx.contractName).map (fun m => mkDeployment m tx)
    else none)

/-- Outcome of the `requests.get` call inside `fetch_config`: it may raise
a connection error, raise a timeout, or return a response.  A response
carries `resp.ok`, `resp.status_code`, `resp.text`, and the parsed JSON
body fields `success`, `error` and `data`. -/
inductive HttpResult where
  | connectionError
  | timeout
  | response (ok : Bool) (status : Nat) (text : String) (success : Bool)
      (errMsg : Option String) (data : Config)
  deriving DecidableEq, Repr

/-- The four distinct RuntimeError messages `fetch_config` can raise
(source lines 43-55); each constructor carries the data interpolated into
the corresponding message format. -/
inductive FetchErr where
  | connectErr (api_url : String)
  | timeoutErr (url : String)
  | httpErr (status : Nat) (text : String)
  | apiErr (errMsg : Option String)
  deriving DecidableEq, Repr

/-- The message string of each `FetchErr`, matching the f-strings of the
source. -/
def FetchErr.message : FetchErr → String
  | .connectErr u => "Cannot connect to API at " ++ u ++ ". Is the backend running?"
  | .timeoutErr u => "API request timed out: " ++ u
  | .httpErr status text => "Failed to fetch config: " ++ toString status ++ " - " ++ text
  | .apiErr e => "API error: " ++ pyStr e

/-- The URL `fetch_config` requests (source line 42). -/
def configUrl (api_url : String) (chain_id : Int) : String :=
  api_url ++ "/api/v1/contracts/config/" ++ toString chain_id

/-- Function `fetch_config` (source lines 37-58), with the outcome of the GET
supplied as `resp`.  Returns the fetched `Config` (also stored as
`self.config`) or the distinct error for each failure mode. -/
def fetch_config (api_url : String) (chain_id : Int) (resp : HttpResult) :
    Except FetchErr Config :=
  match resp with
  | .connectionError => Except.error (FetchErr.connectErr api_url)
  | .timeout => Except.error (FetchErr.timeoutErr (configUrl api_url chain_id))
  | .response ok status text success errMsg data =>
    if !ok then Except.error (FetchErr.httpErr status text)
    else if !success then Except.error (FetchErr.apiErr errMsg)
    else Except.ok data

/-- First candidate path of `load_broadcast_json` (source line 65):
`script_dir.parent / "broadcast" / script_name / str(chain_id) / "run-latest.json"`.
Path joining is modelled as string concatenation with "/";
`parentDir` stands for `script_dir.parent`. -/
def candidate0 (parentDir script_name : String) (chain_id : Int) : String :=
  parentDir ++ "/broadcast/" ++ script_name ++ "/" ++ toString chain_id ++ "/run-latest.json"

/-- Second candidate path (source line 66):
`script_dir / ".." / "broadcast" / script_name / str(chain_id) / "run-latest.json"`. -/
def candidate1 (scriptDir script_name : String) (chain_id : Int) : String :=
  scriptDir ++ "/../broadcast/" ++ script_name ++ "/" ++ toString chain_id ++ "/run-latest.json"

/-- The fixed candidate list `possible_paths` (source lines 64-67), in its
listed priority order. -/
def possible_paths (parentDir scriptDir script_name : String) (chain_id : Int) :
    List String :=
  [candidate0 parentDir script_name chain_id, candidate1 scriptDir script_name chain_id]

/-- Python `", ".join(...)`. -/
def joinComma : List String → String
  | [] => ""
  | [x] => x
  | x :: rest => x ++ ", " ++ joinComma rest

/-- The FileNotFoundError message of source lines 78-81 (the contraction
in the source text is spelled out; the enumerated locations are
identical). -/
def notFoundMsg (searched script_name : String) : String :=
  "Broadcast file not found. Searched:\n" ++ searched ++
    "\n\nMake sure you have run: forge script script/" ++ script_name ++ " --broadcast"

/-- Function `load_broadcast_json` (source lines 60-85).  The filesystem is
modelled by the oracles `resolve` (`Path.resolve`), `fsExists`
(`Path.exists`) and `readJson` (open + `json.load`).  The loop takes the
first candidate whose resolved path exists; when none exists it raises a
FileNotFoundError enumerating every resolved candidate. -/
def load_broadcast_json (resolve : String → String) (fsExists : String → Bool)
    (readJson : String → Broadcast) (parentDir scriptDir : String)
    (chain_id : Int) (script_name : String) : Except String Broadcast :=
  let ps := possible_paths parentDir scriptDir script_name chain_id
  match ps.find? (fun p => fsExists (resolve p)) with
  | some p => Except.ok (readJson (resolve p))
  | none =>
    let searched := joinComma (ps.map resolve)
    Except.error (notFoundMsg searched script_name)

/-- A submission payload as POSTed by `register_contracts`
(source lines 136-144).  `deployed_by = none` means the key is absent
from the JSON body (the source only ever inserts the key with a truthy
string value). -/
structure Payload where
  chain_id : Int
  contract_mapping_id : Nat
  address : Option String
  deployment_tx_hash : Option String
  deployed_by : Option String
  deriving DecidableEq, Repr

/-- Outcome of one `requests.post` call inside the registration loop:
a response with `resp.ok` true, a response with `resp.ok` false, or a
raised `RequestException`. -/
inductive PostResult where
  | ok
  | httpFail (status : Nat) (text : String)
  | exn (msg : String)
  deriving DecidableEq, Repr

/-- Whether a `PostResult` counts as a success in the loop. -/
def PostResult.isOk : PostResult → Bool
  | .ok => true
  | _ => false

/-- The payload built for one Deployment (source lines 136-144): the
`deployed_by` key is added only when `default_deployer` is truthy. -/
def makePayload (chain_id : Int) (default_deployer : Option String)
    (dep : Deployment) : Payload :=
  { chain_id := chain_id
    contract_mapping_id := dep.mapping_id
    address := dep.address
    deployment_tx_hash := dep.tx_hash
    deployed_by := if truthyOpt default_deployer then default_deployer else none }

/-- The registration loop of `register_contracts` (source lines 132-163).
`oracle i` is the outcome of the i-th POST issued in the run; the result
is `((success_count, failure_count), payloads)` where `payloads` lists, in
order, the payload of every POST attempted. -/
def registerCore (oracle : Nat → PostResult) (chain_id : Int)
    (default_deployer : Option String) (deps : List Deployment) (i : Nat) :
    (Nat × Nat) × List Payload :=
  match deps with
  | [] => ((0, 0), [])
  | dep :: rest =>
    let payload := makePayload chain_id default_deployer dep
    let r := registerCore oracle chain_id default_deployer rest (i + 1)
    if (oracle i).isOk then ((r.1.1 + 1, r.1.2), payload :: r.2)
    else ((r.1.1, r.1.2 + 1), payload :: r.2)

/-- Function `register_contracts` (source lines 120-163), including the guard at
lines 126-127 that raises when `self.config` is still `None`.  The
default deployer is read from `self.config["network"].get("default_deployer")`. -/
def register_contracts (oracle : Nat → PostResult) (chain_id : Int)
    (config : Option Config) (deps : List Deployment) :
    Except String ((Nat × Nat) × List Payload) :=
  match config with
  | none => Except.error "Config not loaded. Call fetch_config() first."
  | some cfg =>
    Except.ok (registerCore oracle chain_id cfg.network.default_deployer deps 0)

/-- The command-line arguments of `main` (source lines 167-190).
`api_key` is `none` when the flag is not supplied. -/
structure Args where
  chain_id : Int
  api_url : String
  api_key : Option String
  script : String
  dry_run : Bool
  deriving DecidableEq, Repr

/-- Observable events of a run of `main`, in order:
  * `fetchReq` — the config GET of stage [1/4];
  * `loadReq` — the broadcast-file lookup of stage [2/4];
  * `skip msg` — a skip message printed during extraction;
  * `reportIntended` — one line of the stage [3/4] per-deployment report
    (source lines 232-233), printed in live and dry-run mode alike;
  * `wouldRegister` — one line of the dry-run-only report (lines 243-244);
  * `post p` — an actual POST to the registration service. -/
inductive Event where
  | fetchReq
  | loadReq
  | skip (msg : String)
  | reportIntended (db_name solidity_name : String) (address : Option String)
  | wouldRegister (db_name : String) (address : Option String)
  | post (p : Payload)
  deriving DecidableEq, Repr

/-- The external world `main` runs against: the outcome of the config GET,
the filesystem oracles of the broadcast loader (with `scriptDir` standing
for `Path(__file__).parent` and `parentDir` for its parent), and the
outcome oracle for the registration POSTs. -/
structure Env where
  httpGet : HttpResult
  resolve : String → String
  fsExists : String → Bool
  readJson : String → Broadcast
  parentDir : String
  scriptDir : String
  postOracle : Nat → PostResult

/-- Function `main` (source lines 166-260) as a function from the environment and
arguments to the process exit code and the trace of observable events.
A normal return is exit code 0; `sys.exit(1)` is exit code 1. -/
def main (env : Env) (args : Args) : Nat × List Event :=
  match fetch_config args.api_url args.chain_id env.httpGet with
  | Except.error _ => (1, [Event.fetchReq])
  | Except.ok config =>
    let network_name := config.network.network_name
    if network_name != "localhost" && !truthyOpt args.api_key then
      (1, [Event.fetchReq])
    else
      match load_broadcast_json env.resolve env.fsExists env.readJson
          env.parentDir env.scriptDir args.chain_id args.script with
      | Except.error _ => (1, [Event.fetchReq, Event.loadReq])
      | Except.ok broadcast =>
        let ext := extractCore config broadcast.transactions
        let deployments := ext.1
        let pre := [Event.fetchReq, Event.loadReq] ++ ext.2.map Event.skip ++
          deployments.map (fun d =>
            Event.reportIntended d.db_name d.solidity_name d.address)
        if deployments.isEmpty then (0, pre)
        else if args.dry_run then
          (0, pre ++ deployments.map (fun d => Event.wouldRegister d.db_name d.address))
        else
          let r := registerCore env.postOracle args.chain_id
            config.network.default_deployer deployments 0
          ((if r.1.2 == 0 then 0 else 1), pre ++ r.2.map Event.post)

/-- The deployments reported by the stage [3/4] console report, extracted
from a trace. -/
def intendedReports (t : List Event) : List (String × String × Option String) :=
  t.filterMap (fun e =>
    match e with
    | Event.reportIntended d s a => some (d, s, a)
    | _ => none)

/-- The payloads actually POSTed to the registration service, extracted
from a trace. -/
def postedPayloads (t : List Event) : List Payload :=
  t.filterMap (fun e =>
    match e with
    | Event.post p => some p
    | _ => none)

/-- The deployments reported by the dry-run "Would register" block,
extracted from a trace. -/
def wouldRegisterReports (t : List Event) : List (String × Option String) :=
  t.filterMap (fun e =>
    match e with
    | Event.wouldRegister d a => some (d, a)
    | _ => none)

/-- The skip messages the spec should have promised: one per CREATE-type
transaction whose declared name has no mapping, in record order
(non-CREATE transactions produce no message). -/
def skipMessages (cfg : Config) (txs : List Tx) : List String :=
  txs.filterMap (fun tx =>
    if tx.transactionType == some "CREATE" then
      match solidityToMapping cfg.mappings tx.contractName with
      | some _ => none
      | none => some (skipMsg tx.contractName)
    else none)

theorem extractCore_fst (cfg : Config) (txs : List Tx) :
    (extractCore cfg txs).1 = claimedDeployments cfg txs := by
  induction txs with
  | nil => rfl
  | cons tx rest ih =>
    simp only [extractCore, claimedDeployments, List.filterMap_cons]
    split
    · cases h : solidityToMapping cfg.mappings tx.contractName <;>
        simp [h, ih, claimedDeployments]
    · simpa [claimedDeployments] using ih

theorem extractCore_snd (cfg : Config) (txs : List Tx) :
    (extractCore cfg txs).2 = skipMessages cfg txs := by
  induction txs with
  | nil => rfl
  | cons tx rest ih =>
    simp only [extractCore, skipMessages, List.filterMap_cons]
    split
    · cases h : solidityToMapping cfg.mappings tx.contractName <;>
        simp [h, ih, skipMessages]
    · simpa [skipMessages] using ih

/-- C1: for every broadcast record and loaded mapping set,
`extract_deployments` returns, in record order, exactly one Deployment per
transaction of type CREATE whose contract name is the `solidity_name` of
some mapping, and zero Deployments for every other transaction
(`claimedDeployments` is that characterisation, written from the spec). -/
theorem extract_emits_exactly_matching_creates (cfg : Config) (b : Broadcast) :
    ∃ msgs, extract_deployments (some cfg) b =
      Except.ok (claimedDeployments cfg b.transactions, msgs) :=
  ⟨(extractCore cfg b.transactions).2, by
    simp only [extract_deployments]
    rw [← extractCore_fst]⟩

/-- A one-mapping configuration used in concrete refutations. -/
def cfgCall : Config :=
  { network := { network_name := "localhost", display_name := "Localhost",
                 default_deployer := none }
    mappings := [{ id := 1, solidity_name := "Staking", db_name := "nexusStaking" }] }

/-- A non-CREATE transaction (a plain CALL). -/
def txCall : Tx :=
  { transactionType := some "CALL", contractName := some "Staking",
    contractAddress := some "0x0000000000000000000000000000000000000003",
    hash := some "0xh3" }

/-- C2 counterexample: a non-CREATE transaction yields no Deployment, yet
`extract_deployments` prints no skip message for it either — the
transaction is silently passed over, contradicting the claim that every
non-yielding transaction is reported. -/
theorem skip_report_counterexample :
    txCall.transactionType ≠ some "CREATE" ∧
    extractCore cfgCall [txCall] = ([], []) := by
  constructor
  · simp [txCall]
  · rfl

/-- C2 (amended): `extract_deployments` prints one skip message per
CREATE-type transaction whose declared name has no mapping, in record
order; non-CREATE transactions yield neither a Deployment nor a message. -/
theorem skip_reports_only_unmapped_creates (cfg : Config) (b : Broadcast) :
    ∃ deps, extract_deployments (some cfg) b =
      Except.ok (deps, skipMessages cfg b.transactions) :=
  ⟨(extractCore cfg b.transactions).1, by
    simp only [extract_deployments]
    rw [← extractCore_snd]⟩

/-- C7: `fetch_config` fails fast with a distinct error for each of the
four failure modes — (a) connection error, (b) timeout, (c) non-success
HTTP status (`resp.ok` false), (d) application-level `success: false` in
an OK response — the four errors are pairwise distinct (so the caller can
tell them apart), and none of the four cases ever returns a
configuration. -/
theorem fetch_config_distinct_failures (u : String) (cid : Int) (status : Nat)
    (text : String) (success : Bool) (errMsg : Option String) (data : Config) :
    fetch_config u cid HttpResult.connectionError =
      Except.error (FetchErr.connectErr u) ∧
    fetch_config u cid HttpResult.timeout =
      Except.error (FetchErr.timeoutErr (configUrl u cid)) ∧
    fetch_config u cid (HttpResult.response false status text success errMsg data) =
      Except.error (FetchErr.httpErr status text) ∧
    fetch_config u cid (HttpResult.response true status text false errMsg data) =
      Except.error (FetchErr.apiErr errMsg) ∧
    (FetchErr.connectErr u ≠ FetchErr.timeoutErr (configUrl u cid) ∧
     FetchErr.connectErr u ≠ FetchErr.httpErr status text ∧
     FetchErr.connectErr u ≠ FetchErr.apiErr errMsg ∧
     FetchErr.timeoutErr (configUrl u cid) ≠ FetchErr.httpErr status text ∧
     FetchErr.timeoutErr (configUrl u cid) ≠ FetchErr.apiErr errMsg ∧
     FetchErr.httpErr status text ≠ FetchErr.apiErr errMsg) ∧
    (∀ c : Config,
      fetch_config u cid HttpResult.connectionError ≠ Except.ok c ∧
      fetch_config u cid HttpResult.timeout ≠ Except.ok c ∧
      fetch_config u cid (HttpResult.response false status text success errMsg data) ≠
        Except.ok c ∧
      fetch_config u cid (HttpResult.response true status text false errMsg data) ≠
        Except.ok c) := by
  refine ⟨rfl, rfl, rfl, rfl, ⟨?_, ?_, ?_, ?_, ?_, ?_⟩, fun c => ⟨?_, ?_, ?_, ?_⟩⟩ <;>
    simp [fetch_config]

/-- C8: `load_broadcast_json` checks its two candidate locations in their
listed priority order and loads the first whose resolved path exists; when
neither exists it fails with a message that enumerates both resolved
candidate locations. -/
theorem load_broadcast_priority_order (resolve : String → String)
    (fsE : String → Bool) (rj : String → Broadcast) (pd sd sn : String)
    (cid : Int) :
    (fsE (resolve (candidate0 pd sn cid)) = true →
      load_broadcast_json resolve fsE rj pd sd cid sn =
        Except.ok (rj (resolve (candidate0 pd sn cid)))) ∧
    (fsE (resolve (candidate0 pd sn cid)) = false →
      fsE (resolve (candidate1 sd sn cid)) = true →
      load_broadcast_json resolve fsE rj pd sd cid sn =
        Except.ok (rj (resolve (candidate1 sd sn cid)))) ∧
    (fsE (resolve (candidate0 pd sn cid)) = false →
      fsE (resolve (candidate1 sd sn cid)) = false →
      load_broadcast_json resolve fsE rj pd sd cid sn =
        Except.error (notFoundMsg
          (joinComma [resolve (candidate0 pd sn cid), resolve (candidate1 sd sn cid)]) sn) ∧
      ∃ pre mid post,
        notFoundMsg
          (joinComma [resolve (candidate0 pd sn cid), resolve (candidate1 sd sn cid)]) sn =
        pre ++ resolve (candidate0 pd sn cid) ++ mid ++
          resolve (candidate1 sd sn cid) ++ post) := by
  refine ⟨fun h0 => ?_, fun h0 h1 => ?_, fun h0 h1 => ⟨?_, ?_⟩⟩
  · simp [load_broadcast_json, possible_paths, List.find?, h0]
  · simp [load_broadcast_json, possible_paths, List.find?, h0, h1]
  · simp [load_broadcast_json, possible_paths, List.find?, h0, h1]
  · refine ⟨"Broadcast file not found. Searched:\n", ", ",
      "\n\nMake sure you have run: forge script script/" ++ sn ++ " --broadcast",
      ?_⟩
    simp [notFoundMsg, joinComma, String.append_assoc]

/-- A fixed broadcast-reading oracle for the C8 witness. -/
def rjW : String → Broadcast := fun _ => { transactions := [] }

/-- C8 witness: with a filesystem where the first candidate exists the
loader returns its contents, and with an empty filesystem it fails with a
message enumerating both resolved candidates. -/
theorem load_broadcast_priority_order_witness :
    load_broadcast_json id (fun _ => true) rjW "/p" "/p/script" 31337 "D.s.sol" =
      Except.ok (rjW (candidate0 "/p" "D.s.sol" 31337)) ∧
    (load_broadcast_json id (fun _ => false) rjW "/p" "/p/script" 31337 "D.s.sol" =
      Except.error (notFoundMsg
        (joinComma [candidate0 "/p" "D.s.sol" 31337, candidate1 "/p/script" "D.s.sol" 31337])
        "D.s.sol") ∧
     ∃ pre mid post,
       notFoundMsg
         (joinComma [candidate0 "/p" "D.s.sol" 31337, candidate1 "/p/script" "D.s.sol" 31337])
         "D.s.sol" =
       pre ++ candidate0 "/p" "D.s.sol" 31337 ++ mid ++
         candidate1 "/p/script" "D.s.sol" 31337 ++ post) :=
  ⟨(load_broadcast_priority_order id (fun _ => true) rjW "/p" "/p/script" "D.s.sol" 31337).1 rfl,
   (load_broadcast_priority_order id (fun _ => false) rjW "/p" "/p/script" "D.s.sol" 31337).2.2 rfl rfl⟩

/-- C10: calling `extract_deployments` or `register_contracts` while the
stored config is still `None` raises the RuntimeError of the guard at the
top of each method; the error result carries no deployments, no skip
messages and no payloads, so no transaction is read and no request is
issued. -/
theorem config_guard_precondition (b : Broadcast) (o : Nat → PostResult)
    (cid : Int) (deps : List Deployment) :
    extract_deployments none b =
      Except.error "Config not loaded. Call fetch_config() first." ∧
    register_contracts o cid none deps =
      Except.error "Config not loaded. Call fetch_config() first." :=
  ⟨rfl, rfl⟩

theorem registerCore_payloads (o : Nat → PostResult) (c : Int)
    (d : Option String) (deps : List Deployment) (i : Nat) :
    (registerCore o c d deps i).2 = deps.map (makePayload c d) := by
  induction deps generalizing i with
  | nil => rfl
  | cons dep rest ih =>
    simp only [registerCore, List.map_cons]
    split <;> simp [ih]

theorem registerCore_success_count (o : Nat → PostResult) (c : Int)
    (d : Option String) (deps : List Deployment) (i : Nat) :
    (registerCore o c d deps i).1.1 =
      (List.range deps.length).countP (fun j => (o (i + j)).isOk) := by
  induction deps generalizing i with
  | nil => rfl
  | cons dep rest ih =>
    have hc : ((fun j => (o (i + j)).isOk) ∘ Nat.succ) =
        fun j => (o (i + 1 + j)).isOk := by
      funext j
      have hj : i + Nat.succ j = i + 1 + j := by omega
      simp [Function.comp, hj]
    simp only [registerCore, List.length_cons, List.range_succ_eq_map,
      List.countP_cons, List.countP_map, hc, ← ih (i + 1), Nat.add_zero]
    split <;> simp_all

theorem registerCore_failure_count (o : Nat → PostResult) (c : Int)
    (d : Option String) (deps : List Deployment) (i : Nat) :
    (registerCore o c d deps i).1.2 =
      (List.range deps.length).countP (fun j => !(o (i + j)).isOk) := by
  induction deps generalizing i with
  | nil => rfl
  | cons dep rest ih =>
    have hc : ((fun j => !(o (i + j)).isOk) ∘ Nat.succ) =
        fun j => !(o (i + 1 + j)).isOk := by
      funext j
      have hj : i + Nat.succ j = i + 1 + j := by omega
      simp [Function.comp, hj]
    simp only [registerCore, List.length_cons, List.range_succ_eq_map,
      List.countP_cons, List.countP_map, hc, ← ih (i + 1), Nat.add_zero]
    split <;> simp_all

/-- The POST-outcome oracle of the C4 scenario: the second of the POSTs
(index 1) returns HTTP 500, every other POST succeeds. -/
def oracleC4 : Nat → PostResult :=
  fun i => if i == 1 then PostResult.httpFail 500 "Internal Server Error" else PostResult.ok

/-- A three-mapping configuration for the C4 scenario. -/
def cfgC4 : Config :=
  { network := { network_name := "localhost", display_name := "Localhost",
                 default_deployer := some "0xdeployer" }
    mappings := [{ id := 1, solidity_name := "Alpha", db_name := "alpha" },
                 { id := 2, solidity_name := "Beta", db_name := "beta" },
                 { id := 3, solidity_name := "Gamma", db_name := "gamma" }] }

/-- A broadcast with three CREATE transactions, all mapped. -/
def bcC4 : Broadcast :=
  { transactions :=
      [{ transactionType := some "CREATE", contractName := some "Alpha",
         contractAddress := some "0xa1", hash := some "0xt1" },
       { transactionType := some "CREATE", contractName := some "Beta",
         contractAddress := some "0xa2", hash := some "0xt2" },
       { transactionType := some "CREATE", contractName := some "Gamma",
         contractAddress := some "0xa3", hash := some "0xt3" }] }

/-- The environment of the C4 scenario run. -/
def envC4 : Env :=
  { httpGet := HttpResult.response true 200 "" true none cfgC4
    resolve := id
    fsExists := fun _ => true
    readJson := fun _ => bcC4
    parentDir := "/repo/contracts"
    scriptDir := "/repo/contracts/script"
    postOracle := oracleC4 }

/-- The default command line of the scenario runs. -/
def argsC4 : Args :=
  { chain_id := 31337, api_url := "http://localhost:8080", api_key := none,
    script := "DeployLocal.s.sol", dry_run := false }

/-- C4: `register_contracts` attempts one POST per Deployment in sequence
even when earlier POSTs fail — the attempted payloads are exactly the
per-Deployment payloads, in order — and returns the pair counting the
successful and the failed submissions; in the scenario where the second of
three POSTs returns HTTP 500, the result is (2, 1), all three payloads
are attempted, and `main` exits with code 1. -/
theorem register_partial_failure_tolerant :
    (∀ (o : Nat → PostResult) (c : Int) (d : Option String)
        (deps : List Deployment),
      (registerCore o c d deps 0).2 = deps.map (makePayload c d) ∧
      (registerCore o c d deps 0).1.1 =
        (List.range deps.length).countP (fun j => (o j).isOk) ∧
      (registerCore o c d deps 0).1.2 =
        (List.range deps.length).countP (fun j => !(o j).isOk)) ∧
    (registerCore oracleC4 31337 (some "0xdeployer")
        (extractCore cfgC4 bcC4.transactions).1 0).1 = (2, 1) ∧
    (registerCore oracleC4 31337 (some "0xdeployer")
        (extractCore cfgC4 bcC4.transactions).1 0).2.length = 3 ∧
    (main envC4 argsC4).1 = 1 := by
  refine ⟨fun o c d deps => ⟨registerCore_payloads o c d deps 0, ?_, ?_⟩,
    by decide, by decide, by decide⟩
  · simpa using registerCore_success_count o c d deps 0
  · simpa using registerCore_failure_count o c d deps 0

/-- C5: when the fetched config has no default deployer, every payload
built by the registration loop omits the `deployed_by` key entirely
(modelled as the field being `none`); when a non-empty default deployer is
configured, every payload carries it. -/
theorem deployed_by_presence (o : Nat → PostResult) (c : Int)
    (deps : List Deployment) :
    (∀ p ∈ (registerCore o c none deps 0).2, p.deployed_by = none) ∧
    (∀ s : String, s ≠ "" → ∀ dep : Deployment,
      (makePayload c (some s) dep).deployed_by = some s) ∧
    (∀ s : String, s ≠ "" →
      ∀ p ∈ (registerCore o c (some s) deps 0).2, p.deployed_by = some s) := by
  refine ⟨?_, ?_, ?_⟩
  · intro p hp
    rw [registerCore_payloads] at hp
    obtain ⟨dep, _, rfl⟩ := List.mem_map.mp hp
    simp [makePayload, truthyOpt]
  · intro s hs dep
    simp [makePayload, truthyOpt, hs]
  · intro s hs p hp
    rw [registerCore_payloads] at hp
    obtain ⟨dep, _, rfl⟩ := List.mem_map.mp hp
    simp [makePayload, truthyOpt, hs]

/-- A Deployment used by concrete witnesses. -/
def depW : Deployment :=
  { solidity_name := "Alpha", db_name := "alpha", mapping_id := 1,
    address := some "0xa1", tx_hash := some "0xt1" }

/-- C5 witness: at a concrete run with one Deployment, the payload omits
`deployed_by` when no default deployer is configured, and carries the
configured non-empty deployer otherwise. -/
theorem deployed_by_presence_witness :
    (∀ p ∈ (registerCore oracleC4 31337 none [depW] 0).2, p.deployed_by = none) ∧
    (makePayload 31337 (some "0xdeployer") depW).deployed_by = some "0xdeployer" :=
  ⟨(deployed_by_presence oracleC4 31337 [depW]).1,
   (deployed_by_presence oracleC4 31337 [depW]).2.1 "0xdeployer" (by decide) depW⟩

/-- C9: the `deployed_by` condition is Python truthiness, not key
presence — an empty-string (or null) `default_deployer` produces exactly
the payloads and counts of an absent one, and the key is omitted. -/
theorem deployed_by_truthiness (o : Nat → PostResult) (c : Int)
    (dep : Deployment) (deps : List Deployment) (i : Nat) :
    makePayload c (some "") dep = makePayload c none dep ∧
    (makePayload c (some "") dep).deployed_by = none ∧
    registerCore o c (some "") deps i = registerCore o c none deps i := by
  refine ⟨by simp [makePayload, truthyOpt], by simp [makePayload, truthyOpt], ?_⟩
  induction deps generalizing i with
  | nil => rfl
  | cons d rest ih =>
    simp only [registerCore, makePayload, truthyOpt, ih (i + 1)]
    split <;> simp

/-- C3: whenever the fetched config names a non-localhost network and no
API key was supplied, `main` exits with code 1 and its trace contains no
broadcast-load event — the authorization gate strictly precedes the
LOAD_RECORD stage. -/
theorem auth_gate_precedes_load (env : Env) (args : Args) (cfg : Config)
    (hf : fetch_config args.api_url args.chain_id env.httpGet = Except.ok cfg)
    (hn : cfg.network.network_name ≠ "localhost")
    (hk : truthyOpt args.api_key = false) :
    (main env args).1 = 1 ∧ Event.loadReq ∉ (main env args).2 := by
  have hcond : (cfg.network.network_name != "localhost" && !truthyOpt args.api_key) = true := by
    simp [hn, hk]
  simp [main, hf, hcond]

/-- The non-localhost configuration of the C3 witness. -/
def cfgC3 : Config :=
  { network := { network_name := "mainnet", display_name := "Ethereum Mainnet",
                 default_deployer := none }
    mappings := [] }

/-- The C3 witness environment: the config GET succeeds and returns the
mainnet config; the filesystem would have a broadcast file. -/
def envC3 : Env :=
  { httpGet := HttpResult.response true 200 "" true none cfgC3
    resolve := id
    fsExists := fun _ => true
    readJson := fun _ => bcC4
    parentDir := "/repo/contracts"
    scriptDir := "/repo/contracts/script"
    postOracle := fun _ => PostResult.ok }

/-- C3 witness: a concrete run against a mainnet config with no API key
exits 1 without ever looking for the broadcast file. -/
theorem auth_gate_precedes_load_witness :
    (main envC3 argsC4).1 = 1 ∧ Event.loadReq ∉ (main envC3 argsC4).2 :=
  auth_gate_precedes_load envC3 argsC4 cfgC3 rfl (by decide) rfl

theorem intendedReports_append (a b : List Event) :
    intendedReports (a ++ b) = intendedReports a ++ intendedReports b :=
  List.filterMap_append a b _

theorem postedPayloads_append (a b : List Event) :
    postedPayloads (a ++ b) = postedPayloads a ++ postedPayloads b :=
  List.filterMap_append a b _

theorem wouldRegisterReports_append (a b : List Event) :
    wouldRegisterReports (a ++ b) =
      wouldRegisterReports a ++ wouldRegisterReports b :=
  List.filterMap_append a b _

theorem intendedReports_cons_fetch (t : List Event) :
    intendedReports (Event.fetchReq :: t) = intendedReports t := rfl

theorem intendedReports_cons_load (t : List Event) :
    intendedReports (Event.loadReq :: t) = intendedReports t := rfl

theorem postedPayloads_cons_fetch (t : List Event) :
    postedPayloads (Event.fetchReq :: t) = postedPayloads t := rfl

theorem postedPayloads_cons_load (t : List Event) :
    postedPayloads (Event.loadReq :: t) = postedPayloads t := rfl

theorem wouldRegisterReports_cons_fetch (t : List Event) :
    wouldRegisterReports (Event.fetchReq :: t) = wouldRegisterReports t := rfl

theorem wouldRegisterReports_cons_load (t : List Event) :
    wouldRegisterReports (Event.loadReq :: t) = wouldRegisterReports t := rfl

theorem intendedReports_skips (l : List String) :
    intendedReports (l.map Event.skip) = [] := by
  induction l with
  | nil => rfl
  | cons m rest ih => exact ih

theorem intendedReports_would (l : List Deployment) :
    intendedReports (l.map (fun d => Event.wouldRegister d.db_name d.address)) = [] := by
  induction l with
  | nil => rfl
  | cons d rest ih => exact ih

theorem intendedReports_posts (l : List Payload) :
    intendedReports (l.map Event.post) = [] := by
  induction l with
  | nil => rfl
  | cons p rest ih => exact ih

theorem intendedReports_reports (l : List Deployment) :
    intendedReports (l.map (fun d =>
      Event.reportIntended d.db_name d.solidity_name d.address)) =
      l.map (fun d => (d.db_name, d.solidity_name, d.address)) := by
  induction l with
  | nil => rfl
  | cons d rest ih => exact congrArg (List.cons _) ih

theorem postedPayloads_would (l : List Deployment) :
    postedPayloads (l.map (fun d => Event.wouldRegister d.db_name d.address)) = [] := by
  induction l with
  | nil => rfl
  | cons d rest ih => exact ih

theorem postedPayloads_skips (l : List String) :
    postedPayloads (l.map Event.skip) = [] := by
  induction l with
  | nil => rfl
  | cons m rest ih => exact ih

theorem postedPayloads_reports (l : List Deployment) :
    postedPayloads (l.map (fun d =>
      Event.reportIntended d.db_name d.solidity_name d.address)) = [] := by
  induction l with
  | nil => rfl
  | cons d rest ih => exact ih

theorem wouldRegisterReports_skips (l : List String) :
    wouldRegisterReports (l.map Event.skip) = [] := by
  induction l with
  | nil => rfl
  | cons m rest ih => exact ih

theorem wouldRegisterReports_reports (l : List Deployment) :
    wouldRegisterReports (l.map (fun d =>
      Event.reportIntended d.db_name d.solidity_name d.address)) = [] := by
  induction l with
  | nil => rfl
  | cons d rest ih => exact ih

theorem wouldRegisterReports_would (l : List Deployment) :
    wouldRegisterReports (l.map (fun d => Event.wouldRegister d.db_name d.address)) =
      l.map (fun d => (d.db_name, d.address)) := by
  induction l with
  | nil => rfl
  | cons d rest ih => exact congrArg (List.cons _) ih

/-- C6: on any run that reaches stage 4 with a non-empty Deployment list,
the dry-run switch leaves the stage [3/4] per-deployment console report
identical to the live run, reports in its "Would register" block exactly
the deployments the live run would submit, and issues zero POST requests
to the registration service. -/
theorem dry_run_reports_no_posts (env : Env) (args : Args) (cfg : Config)
    (bc : Broadcast)
    (hf : fetch_config args.api_url args.chain_id env.httpGet = Except.ok cfg)
    (hg : (cfg.network.network_name != "localhost" && !truthyOpt args.api_key) = false)
    (hl : load_broadcast_json env.resolve env.fsExists env.readJson
      env.parentDir env.scriptDir args.chain_id args.script = Except.ok bc)
    (hne : (extractCore cfg bc.transactions).1 ≠ []) :
    intendedReports (main env { args with dry_run := true }).2 =
      intendedReports (main env { args with dry_run := false }).2 ∧
    postedPayloads (main env { args with dry_run := true }).2 = [] ∧
    wouldRegisterReports (main env { args with dry_run := true }).2 =
      (extractCore cfg bc.transactions).1.map (fun d => (d.db_name, d.address)) := by
  have hemp : (extractCore cfg bc.transactions).1.isEmpty = false := by
    cases h : (extractCore cfg bc.transactions).1 with
    | nil => exact absurd h hne
    | cons a l => rfl
  simp only [main, hf, hg, hl, Bool.false_eq_true, if_false, hemp, if_true,
    Bool.true_eq_false]
  refine ⟨?_, ?_, ?_⟩
  · simp only [intendedReports_cons_fetch, intendedReports_cons_load,
      intendedReports_append, intendedReports_skips, intendedReports_would,
      intendedReports_posts, intendedReports_reports, List.append_nil,
      List.nil_append]
  · simp only [postedPayloads_cons_fetch, postedPayloads_cons_load,
      postedPayloads_append, postedPayloads_skips, postedPayloads_reports,
      postedPayloads_would, List.append_nil, List.nil_append]
    rfl
  · simp only [wouldRegisterReports_cons_fetch, wouldRegisterReports_cons_load,
      wouldRegisterReports_append, wouldRegisterReports_skips,
      wouldRegisterReports_reports, wouldRegisterReports_would, List.append_nil,
      List.nil_append]
    rfl

/-- C6 witness: the concrete scenario environment run dry reports the same
intended registrations as the live run and issues zero POSTs. -/
theorem dry_run_reports_no_posts_witness :
    intendedReports (main envC4 { argsC4 with dry_run := true }).2 =
      intendedReports (main envC4 { argsC4 with dry_run := false }).2 ∧
    postedPayloads (main envC4 { argsC4 with dry_run := true }).2 = [] ∧
    wouldRegisterReports (main envC4 { argsC4 with dry_run := true }).2 =
      (extractCore cfgC4 bcC4.transactions).1.map (fun d => (d.db_name, d.address)) :=
  dry_run_reports_no_posts envC4 argsC4 cfgC4 bcC4 rfl rfl rfl (by decide)

end PostDeploy
